import Mathlib

/-!
Verification of the Logger_One repository's fallback/notification/context core.

Shallow embedding conventions:
* Python lists become `List`; Python dicts (which preserve insertion order and
  update a present key in place) become association lists with a
  `dictInsert` operation mirroring `d[k] = v`.
* A Python callable that may raise becomes a Lean function returning
  `Except String Unit` (the `String` is the exception's message).
* Locks are dropped: every claim below is about a single thread of control,
  and each Python critical section becomes one atomic Lean function.
* Wall-clock effects (`time.sleep`, log lines emitted by the library's own
  `StructuredLogger`) are counted in the result instead of performed.
-/

namespace LoggerOne

/-! ### src/fallback/buffer_manager.py -/

/-- `BufferManager.add` (buffer_manager.py lines 15-19): append `message`;
if the length now exceeds `capacity`, `pop(0)` the oldest entry. -/
def bmAdd (capacity : Nat) (buffer : List String) (message : String) : List String :=
  let b := buffer ++ [message]
  if capacity < b.length then b.drop 1 else b

/-- Folding `BufferManager.add` over a sequence of messages. -/
def bmAddAll (capacity : Nat) (buffer : List String) (msgs : List String) : List String :=
  msgs.foldl (bmAdd capacity) buffer

/-- Whether the flush callback succeeds on a message (its `Except` is `.ok`). -/
def cbOk (cb : String → Except String Unit) (m : String) : Bool :=
  match cb m with
  | .ok _ => true
  | .error _ => false

/-- The sequence of messages on which `BufferManager.flush` actually invokes
`target_callback`, in order: every message until the first one whose callback
raises, that failing message included (the `try`/`except ... break` in
buffer_manager.py lines 24-28). -/
def bmFlushInvoked (cb : String → Except String Unit) : List String → List String
  | [] => []
  | m :: rest =>
    match cb m with
    | .ok _ => m :: bmFlushInvoked cb rest
    | .error _ => [m]

/-- `BufferManager.flush` (buffer_manager.py lines 21-29): iterate a snapshot of
the buffer invoking the callback, break on the first exception, then
unconditionally `self.buffer.clear()`.  Returns the list of messages the
callback was invoked on together with the buffer left behind. -/
def bmFlush (cb : String → Except String Unit) (buffer : List String) :
    List String × List String :=
  (bmFlushInvoked cb buffer, [])

/-! ### Buffer lemmas -/

theorem bmAdd_length_le (capacity : Nat) (buffer : List String) (message : String)
    (h : buffer.length ≤ capacity) : (bmAdd capacity buffer message).length ≤ capacity := by
  simp only [bmAdd]
  split
  · simp only [List.length_drop, List.length_append, List.length_cons, List.length_nil]
    omega
  · rename_i hcond
    simp only [List.length_append, List.length_cons, List.length_nil] at hcond ⊢
    omega

theorem bmAddAll_length_le (capacity : Nat) (msgs : List String) (buffer : List String)
    (h : buffer.length ≤ capacity) : (bmAddAll capacity buffer msgs).length ≤ capacity := by
  induction msgs generalizing buffer with
  | nil => exact h
  | cons m rest ih =>
    exact ih (bmAdd capacity buffer m) (bmAdd_length_le capacity buffer m h)

theorem bmAddAll_eq_drop (capacity : Nat) (msgs : List String) (buffer : List String)
    (h : buffer.length ≤ capacity) :
    bmAddAll capacity buffer msgs =
      (buffer ++ msgs).drop (buffer.length + msgs.length - capacity) := by
  induction msgs generalizing buffer with
  | nil => simp [bmAddAll, Nat.sub_eq_zero_of_le h]
  | cons m rest ih =>
    have hstep : bmAddAll capacity buffer (m :: rest) =
        bmAddAll capacity (bmAdd capacity buffer m) rest := rfl
    rw [hstep]
    by_cases hc : capacity < buffer.length + 1
    · have hlen : buffer.length = capacity := by omega
      have hadd : bmAdd capacity buffer m = (buffer ++ [m]).drop 1 := by
        simp only [bmAdd]
        simp only [List.length_append, List.length_cons, List.length_nil]
        rw [if_pos (by omega)]
      have hlen2 : (bmAdd capacity buffer m).length ≤ capacity := by
        rw [hadd]
        simp only [List.length_drop, List.length_append, List.length_cons, List.length_nil]
        omega
      rw [ih _ hlen2, hadd]
      have hsplit : (buffer ++ [m]).drop 1 ++ rest = ((buffer ++ [m]) ++ rest).drop 1 :=
        (List.drop_append_of_le_length (by simp)).symm
      rw [hsplit, List.drop_drop]
      have he : (buffer ++ [m]) ++ rest = buffer ++ m :: rest := by simp
      rw [he]
      congr 1
      simp only [List.length_drop, List.length_append, List.length_cons, List.length_nil]
      omega
    · have hadd : bmAdd capacity buffer m = buffer ++ [m] := by
        simp only [bmAdd]
        simp only [List.length_append, List.length_cons, List.length_nil]
        rw [if_neg (by omega)]
      have hlen2 : (bmAdd capacity buffer m).length ≤ capacity := by
        rw [hadd]
        simp only [List.length_append, List.length_cons, List.length_nil]
        omega
      rw [ih _ hlen2, hadd, List.append_assoc]
      have he : [m] ++ rest = m :: rest := rfl
      rw [he]
      congr 1
      simp only [List.length_append, List.length_cons, List.length_nil]
      omega

/-- C7: with the buffer starting empty, (a) after every prefix of the additions
the buffer holds at most `capacity` messages, (b) after all `n` additions it is
exactly the last `min n capacity` messages in insertion order, and (c) the
concrete instance: capacity 3, adding m1..m5 leaves [m3, m4, m5]. -/
theorem bufferManager_fifo (capacity : Nat) (msgs : List String) :
    (∀ k : Nat, (bmAddAll capacity [] (msgs.take k)).length ≤ capacity) ∧
    bmAddAll capacity [] msgs = msgs.drop (msgs.length - capacity) ∧
    (bmAddAll capacity [] msgs).length = min msgs.length capacity ∧
    bmAddAll 3 [] ["m1", "m2", "m3", "m4", "m5"] = ["m3", "m4", "m5"] := by
  refine ⟨fun k => bmAddAll_length_le capacity _ [] (by simp), ?_, ?_, by decide⟩
  · have := bmAddAll_eq_drop capacity msgs [] (by simp)
    simpa using this
  · have := bmAddAll_eq_drop capacity msgs [] (by simp)
    simp only [List.nil_append, List.length_nil, Nat.zero_add] at this
    rw [this, List.length_drop]
    omega

/-- C4: `flush` leaves the buffer empty in every case, and the callback is
invoked exactly on the longest all-succeeding prefix of the buffer followed by
the first failing message (if any), in insertion order; messages after the
first failure are never attempted. -/
theorem bufferManager_flush (cb : String → Except String Unit) (buffer : List String) :
    (bmFlush cb buffer).2 = [] ∧
    (bmFlush cb buffer).1 =
      buffer.takeWhile (cbOk cb) ++ (buffer.dropWhile (cbOk cb)).take 1 := by
  refine ⟨rfl, ?_⟩
  induction buffer with
  | nil => rfl
  | cons m rest ih =>
    show bmFlushInvoked cb (m :: rest) = _
    rcases hm : cb m with e | u
    · simp [bmFlushInvoked, hm, List.takeWhile_cons, List.dropWhile_cons, cbOk]
    · simp [bmFlushInvoked, hm, List.takeWhile_cons, List.dropWhile_cons, cbOk] at ih ⊢
      exact ih

/-! ### src/notifications/models.py -/

/-- `NotificationMessage` (models.py): immutable dataclass.  `timestamp` and
`metadata` values are opaque to the dispatcher and are embedded as strings. -/
structure NotificationMessage where
  id : String
  level : String
  title : String
  text : String
  correlationId : Option String
  timestamp : String
  metadata : List (String × String)
deriving DecidableEq

/-! ### src/notifications/dispatcher.py and retry_policy.py

The `self.channels` dict is an association list from level to the ordered
list of registered channel objects; a channel is any value `ch : C` together
with the ambient `send : C → NotificationMessage → Bool` capability.
Python dicts keep insertion order and update a present key in place, which
`dictInsert`-style operations below mirror. -/

/-- The dict built in `NotificationDispatcher.__init__` (dispatcher.py
lines 11-17): the four predefined severities, each with an empty list. -/
def initChannels (C : Type) : List (String × List C) :=
  [("INFO", []), ("WARN", []), ("ALERT", []), ("ERROR", [])]

/-- `NotificationDispatcher.register_channel` (dispatcher.py lines 19-23):
`if level not in self.channels: self.channels[level] = []` then
`self.channels[level].append(channel)`.  A missing level gains a fresh entry
at the end of the dict; a present level's list is extended in place. -/
def registerChannel {C : Type} (channels : List (String × List C))
    (level : String) (ch : C) : List (String × List C) :=
  if (channels.lookup level).isSome then
    channels.map (fun p => if p.1 = level then (p.1, p.2 ++ [ch]) else p)
  else
    channels ++ [(level, [ch])]

/-- Outcome of one un-retried body of `NotificationDispatcher.dispatch`
(dispatcher.py lines 26-36): the returned boolean, the result of each
`ch.send(message)` call in registration order (one entry per invoked channel),
and whether the "No channels registered for level" warning was logged. -/
structure DispatchResult where
  success : Bool
  sendResults : List Bool
  warnedNoChannels : Bool
deriving DecidableEq

/-- The body of `NotificationDispatcher.dispatch` before the `@with_retry`
decorator is applied: `targets = self.channels.get(message.level, [])`; if
empty, warn and return `False`; otherwise call `ch.send(message)` on every
channel (the call happens before the `and`, so no short-circuit) and
accumulate `success = success and ok`. -/
def dispatchOnce {C : Type} (channels : List (String × List C))
    (send : C → NotificationMessage → Bool) (m : NotificationMessage) : DispatchResult :=
  let targets := (channels.lookup m.level).getD []
  if targets.isEmpty then
    { success := false, sendResults := [], warnedNoChannels := true }
  else
    let results := targets.map (fun ch => send ch m)
    { success := results.foldl (fun acc ok => acc && ok) true
      sendResults := results
      warnedNoChannels := false }

/-- The loop inside `with_retry`'s `wrapper` (retry_policy.py lines 11-19),
with `attempt` the 1-based attempt counter and the second argument the number
of attempts still allowed.  `f attempt` is the decorated function's boolean
result on that attempt.  Returns (final result, attempts made, number of
`time.sleep(delay)` calls): on success it returns `True` at once; on failure
it logs "Retrying notification", sleeps, and continues; after the loop it
logs "Notification failed after retries" and returns `False`. -/
def retryLoop (f : Nat → Bool) : Nat → Nat → Bool × Nat × Nat
  | _, 0 => (false, 0, 0)
  | attempt, n + 1 =>
    if f attempt then (true, 1, 0)
    else
      let r := retryLoop f (attempt + 1) n
      (r.1, r.2.1 + 1, r.2.2 + 1)

/-- `with_retry(retries, delay)` applied to a boolean-returning function
(retry_policy.py lines 7-21): run the attempt loop starting at attempt 1. -/
def withRetry (retries : Nat) (f : Nat → Bool) : Bool × Nat × Nat :=
  retryLoop f 1 retries

/-- The decorated `NotificationDispatcher.dispatch` as callers see it:
`@with_retry(retries=3, delay=3)` wrapping the dispatch body.  `sendAt a` is
the channels' send behaviour on attempt `a` (a channel object may be
stateful, so its result may vary between attempts).  Returns (result,
attempts made, sleep calls of 3 time units each). -/
def dispatch {C : Type} (channels : List (String × List C))
    (sendAt : Nat → C → NotificationMessage → Bool) (m : NotificationMessage) :
    Bool × Nat × Nat :=
  withRetry 3 (fun a => (dispatchOnce channels (sendAt a) m).success)

/-! ### Dispatcher lemmas -/

theorem lookup_cons_self {β : Type} (k : String) (w : β) (rest : List (String × β)) :
    List.lookup k ((k, w) :: rest) = some w := by
  simp [List.lookup]

theorem lookup_cons_ne {β : Type} (k l : String) (w : β) (rest : List (String × β))
    (h : l ≠ k) : List.lookup l ((k, w) :: rest) = List.lookup l rest := by
  simp [List.lookup, beq_false_of_ne h]

theorem lookup_map_update {C : Type} (d : List (String × List C)) (level : String)
    (ch : C) : ∀ v, d.lookup level = some v →
    (d.map (fun p => if p.1 = level then (p.1, p.2 ++ [ch]) else p)).lookup level =
      some (v ++ [ch]) := by
  induction d with
  | nil => intro v h; simp [List.lookup] at h
  | cons p rest ih =>
    intro v h
    obtain ⟨k, w⟩ := p
    rw [List.map_cons]
    by_cases hk : level = k
    · subst hk
      rw [if_pos rfl]
      rw [lookup_cons_self] at h
      rw [show ((level, w).1, (level, w).2 ++ [ch]) = (level, w ++ [ch]) from rfl,
        lookup_cons_self]
      rw [Option.some_inj] at h
      rw [h]
    · rw [if_neg (fun he => hk he.symm)]
      rw [lookup_cons_ne k level w rest hk] at h
      rw [show ((k, w) : String × List C) = (k, w) from rfl]
      rw [lookup_cons_ne k level w _ hk]
      exact ih v h

theorem lookup_map_update_ne {C : Type} (d : List (String × List C)) (level l' : String)
    (ch : C) (h : l' ≠ level) :
    (d.map (fun p => if p.1 = level then (p.1, p.2 ++ [ch]) else p)).lookup l' =
      d.lookup l' := by
  induction d with
  | nil => rfl
  | cons p rest ih =>
    obtain ⟨k, w⟩ := p
    rw [List.map_cons]
    by_cases hk : k = level
    · have hl : l' ≠ k := fun he => h (he.trans hk)
      rw [if_pos hk]
      rw [show ((k, w).1, (k, w).2 ++ [ch]) = (k, w ++ [ch]) from rfl]
      rw [lookup_cons_ne k l' (w ++ [ch]) _ hl, lookup_cons_ne k l' w rest hl]
      exact ih
    · rw [if_neg hk]
      by_cases hl : l' = k
      · subst hl
        rw [lookup_cons_self, lookup_cons_self]
      · rw [lookup_cons_ne k l' w _ hl, lookup_cons_ne k l' w rest hl]
        exact ih

theorem lookup_append_single {C : Type} (d : List (String × List C)) (level : String)
    (ch : C) : d.lookup level = none →
    (d ++ [(level, [ch])]).lookup level = some [ch] := by
  induction d with
  | nil => intro _; exact lookup_cons_self level [ch] []
  | cons p rest ih =>
    intro h
    obtain ⟨k, w⟩ := p
    by_cases hl : level = k
    · subst hl; rw [lookup_cons_self] at h; exact absurd h (by simp)
    · rw [lookup_cons_ne k level w rest hl] at h
      rw [List.cons_append, lookup_cons_ne k level w _ hl]
      exact ih h

theorem lookup_append_single_ne {C : Type} (d : List (String × List C))
    (level l' : String) (ch : C) (h : l' ≠ level) :
    (d ++ [(level, [ch])]).lookup l' = d.lookup l' := by
  induction d with
  | nil => simpa using lookup_cons_ne level l' [ch] [] h
  | cons p rest ih =>
    obtain ⟨k, w⟩ := p
    by_cases hl : l' = k
    · subst hl
      rw [List.cons_append, lookup_cons_self, lookup_cons_self]
    · rw [List.cons_append, lookup_cons_ne k l' w _ hl, lookup_cons_ne k l' w rest hl]
      exact ih

/-- C9: `register_channel` never fails: for any level string it appends the
channel at the end of that level's list (creating the entry first when the
level — e.g. one outside the four predefined severities — is absent, so the
new list is `[] ++ [ch]`), and the channel lists of every other level are
unchanged. -/
theorem registerChannel_spec {C : Type} (d : List (String × List C))
    (level : String) (ch : C) :
    (registerChannel d level ch).lookup level = some ((d.lookup level).getD [] ++ [ch]) ∧
    ∀ l', l' ≠ level → (registerChannel d level ch).lookup l' = d.lookup l' := by
  constructor
  · unfold registerChannel
    rcases hv : d.lookup level with _ | v
    · simp [hv]
      exact lookup_append_single d level ch hv
    · simp [hv]
      exact lookup_map_update d level ch v hv
  · intro l' hl'
    unfold registerChannel
    split
    · exact lookup_map_update_ne d level l' ch hl'
    · exact lookup_append_single_ne d level l' ch hl'

/-- Closed instance of `registerChannel_spec`: registering a channel for the
predefined level "ALERT" and for the novel level "AUDIT" on the initial dict,
discharging its (in-conclusion) hypotheses at concrete other levels. -/
theorem registerChannel_spec_witness :
    ((registerChannel (initChannels Bool) "ALERT" true).lookup "ALERT" =
      some (((initChannels Bool).lookup "ALERT").getD [] ++ [true])) ∧
    (registerChannel (initChannels Bool) "ALERT" true).lookup "INFO" =
      (initChannels Bool).lookup "INFO" ∧
    (registerChannel (initChannels Bool) "AUDIT" true).lookup "AUDIT" =
      some (((initChannels Bool).lookup "AUDIT").getD [] ++ [true]) :=
  ⟨(registerChannel_spec (initChannels Bool) "ALERT" true).1,
    (registerChannel_spec (initChannels Bool) "ALERT" true).2 "INFO" (by decide),
    (registerChannel_spec (initChannels Bool) "AUDIT" true).1⟩

theorem foldl_and_eq_all (l : List Bool) :
    ∀ acc : Bool, l.foldl (fun acc ok => acc && ok) acc = (acc && l.all id) := by
  induction l with
  | nil => intro acc; simp
  | cons b rest ih =>
    intro acc
    rw [List.foldl_cons, ih (acc && b), List.all_cons]
    simp [Bool.and_assoc]

/-- C5: when channels are registered for the message's level, `dispatch`'s body
invokes `send` once per registered channel in registration order (one result
per channel, no short-circuit even after a `false`), and the attempt succeeds
iff every channel's `send` returned `true`. -/
theorem dispatch_all_channels {C : Type} (d : List (String × List C))
    (send : C → NotificationMessage → Bool) (m : NotificationMessage)
    (h : (d.lookup m.level).getD [] ≠ []) :
    (dispatchOnce d send m).sendResults =
      ((d.lookup m.level).getD []).map (fun ch => send ch m) ∧
    (dispatchOnce d send m).warnedNoChannels = false ∧
    ((dispatchOnce d send m).success = true ↔
      ∀ ch ∈ (d.lookup m.level).getD [], send ch m = true) := by
  have hne : ((d.lookup m.level).getD []).isEmpty = false := by
    rcases he : (d.lookup m.level).getD [] with _ | ⟨c, cs⟩
    · exact absurd he h
    · rfl
  have hres : dispatchOnce d send m =
      { success := (((d.lookup m.level).getD []).map
          (fun ch => send ch m)).foldl (fun acc ok => acc && ok) true,
        sendResults := ((d.lookup m.level).getD []).map (fun ch => send ch m),
        warnedNoChannels := false } := by
    simp only [dispatchOnce, hne, Bool.false_eq_true, if_false]
  rw [hres]
  refine ⟨rfl, rfl, ?_⟩
  show (((d.lookup m.level).getD []).map
      (fun ch => send ch m)).foldl (fun acc ok => acc && ok) true = true ↔ _
  rw [foldl_and_eq_all, Bool.true_and, List.all_eq_true]
  constructor
  · intro hall ch hch
    exact hall (send ch m) (List.mem_map.mpr ⟨ch, hch, rfl⟩)
  · intro hall r hr
    obtain ⟨ch, hch, rfl⟩ := List.mem_map.mp hr
    exact hall ch hch

/-- A `NotificationMessage` at level "ALERT", used to instantiate the
dispatcher theorems. -/
def alertMsg : NotificationMessage :=
  { id := "n1", level := "ALERT", title := "t", text := "x",
    correlationId := none, timestamp := "ts", metadata := [] }

/-- Two channels registered for "ALERT": modelled as their fixed send results,
first `false` then `true`, read back by `sendSelf`. -/
def twoChannelAlert : List (String × List Bool) :=
  registerChannel (registerChannel (initChannels Bool) "ALERT" false) "ALERT" true

/-- A channel whose `send` returns the boolean the channel was built from. -/
def sendSelf (ch : Bool) (_ : NotificationMessage) : Bool := ch

/-- Closed instance of `dispatch_all_channels`: two channels for "ALERT", the
first failing and the second succeeding — both are invoked and the attempt
returns `false` (AND semantics). -/
theorem dispatch_all_channels_witness :
    ((twoChannelAlert.lookup alertMsg.level).getD [] ≠ []) ∧
    ((dispatchOnce twoChannelAlert sendSelf alertMsg).sendResults =
      ((twoChannelAlert.lookup alertMsg.level).getD []).map (fun ch => sendSelf ch alertMsg) ∧
     (dispatchOnce twoChannelAlert sendSelf alertMsg).warnedNoChannels = false ∧
     ((dispatchOnce twoChannelAlert sendSelf alertMsg).success = true ↔
       ∀ ch ∈ (twoChannelAlert.lookup alertMsg.level).getD [], sendSelf ch alertMsg = true)) ∧
    (dispatchOnce twoChannelAlert sendSelf alertMsg).sendResults = [false, true] ∧
    (dispatchOnce twoChannelAlert sendSelf alertMsg).success = false :=
  ⟨by decide, dispatch_all_channels twoChannelAlert sendSelf alertMsg (by decide),
    by decide, by decide⟩

/-! ### Retry-policy lemmas -/

theorem retryLoop_attempts_le (f : Nat → Bool) :
    ∀ n a, (retryLoop f a n).2.1 ≤ n := by
  intro n
  induction n with
  | zero => intro a; simp [retryLoop]
  | succ k ih =>
    intro a
    unfold retryLoop
    split
    · simp
    · simpa using ih (a + 1)

theorem retryLoop_true_iff (f : Nat → Bool) :
    ∀ n a, ((retryLoop f a n).1 = true ↔ ∃ b, a ≤ b ∧ b < a + n ∧ f b = true) := by
  intro n
  induction n with
  | zero =>
    intro a
    simp only [retryLoop]
    constructor
    · intro hf; exact absurd hf (by simp)
    · rintro ⟨b, hb1, hb2, _⟩; omega
  | succ k ih =>
    intro a
    unfold retryLoop
    split
    · rename_i hfa
      simp only [true_iff]
      exact ⟨a, le_refl a, by omega, hfa⟩
    · rename_i hfa
      simp only [Bool.not_eq_true] at hfa
      simp only []
      rw [ih (a + 1)]
      constructor
      · rintro ⟨b, hb1, hb2, hb3⟩
        exact ⟨b, by omega, by omega, hb3⟩
      · rintro ⟨b, hb1, hb2, hb3⟩
        refine ⟨b, ?_, by omega, hb3⟩
        rcases Nat.eq_or_lt_of_le hb1 with he | hl
        · subst he; rw [hfa] at hb3; exact absurd hb3 (by simp)
        · omega

theorem retryLoop_all_false (f : Nat → Bool) :
    ∀ n a, (∀ b, a ≤ b → b < a + n → f b = false) → retryLoop f a n = (false, n, n) := by
  intro n
  induction n with
  | zero => intro a _; rfl
  | succ k ih =>
    intro a hall
    unfold retryLoop
    rw [if_neg (by simp [hall a (le_refl a) (by omega)])]
    rw [ih (a + 1) (fun b hb1 hb2 => hall b (by omega) (by omega))]

/-- A dict with a single channel registered for "ALERT" (channel object is
opaque, its behaviour supplied per attempt by `flakySend`). -/
def oneChannelAlert : List (String × List Unit) :=
  registerChannel (initChannels Unit) "ALERT" ()

/-- A stateful channel whose `send` fails on the first two invocations and
succeeds from the third on. -/
def flakySend (a : Nat) (_ : Unit) (_ : NotificationMessage) : Bool := decide (3 ≤ a)

/-- C6: the retry wrapper makes at most `retries` attempts, returns `true`
iff some attempt in 1..retries succeeded, and returns `false` after making
(and sleeping after) all `retries` failed attempts; concretely, a single
"ALERT" channel whose send fails twice then succeeds makes the decorated
`dispatch` return `true` after exactly 3 attempts (the channel is invoked
once per attempt, hence exactly 3 times) with 2 inter-attempt delays. -/
theorem withRetry_spec (retries : Nat) (f : Nat → Bool) :
    (withRetry retries f).2.1 ≤ retries ∧
    ((withRetry retries f).1 = true ↔ ∃ a, 1 ≤ a ∧ a ≤ retries ∧ f a = true) ∧
    ((∀ a, 1 ≤ a → a ≤ retries → f a = false) → withRetry retries f = (false, retries, retries)) ∧
    dispatch oneChannelAlert flakySend alertMsg = (true, 3, 2) ∧
    (∀ a, (dispatchOnce oneChannelAlert (flakySend a) alertMsg).sendResults.length = 1) := by
  refine ⟨retryLoop_attempts_le f retries 1, ?_, ?_, by decide, fun a => ?_⟩
  · rw [withRetry, retryLoop_true_iff f retries 1]
    constructor
    · rintro ⟨b, hb1, hb2, hb3⟩; exact ⟨b, hb1, by omega, hb3⟩
    · rintro ⟨b, hb1, hb2, hb3⟩; exact ⟨b, hb1, by omega, hb3⟩
  · intro hall
    exact retryLoop_all_false f retries 1 (fun b hb1 hb2 => hall b hb1 (by omega))
  · have hl : (oneChannelAlert.lookup alertMsg.level).getD [] = [()] := by decide
    simp [dispatchOnce, hl]

/-- C1 counterexample: with zero channels registered for "ALERT" (the initial
dispatcher state), the decorated `dispatch` does NOT return after a single
attempt with no delay — the `with_retry(retries=3, delay=3)` wrapper treats
the no-channels `False` like any other failure and performs 3 attempts with
3 sleeps before returning `false`. -/
theorem dispatch_noChannels_cex :
    dispatch (initChannels Unit) (fun _ _ _ => false) alertMsg = (false, 3, 3) ∧
    ¬((dispatch (initChannels Unit) (fun _ _ _ => false) alertMsg).2.1 = 1 ∧
      (dispatch (initChannels Unit) (fun _ _ _ => false) alertMsg).2.2 = 0) := by
  decide

/-- C1 amended: with zero channels for the message's level, every attempt's
dispatch body logs the no-channels warning and returns `false` without
invoking any channel; the surrounding retry decorator still performs its full
3 attempts, sleeping `delay` after each failed one, before returning `false`. -/
theorem dispatch_noChannels {C : Type} (d : List (String × List C))
    (sendAt : Nat → C → NotificationMessage → Bool) (m : NotificationMessage)
    (h : (d.lookup m.level).getD [] = []) :
    (∀ a, dispatchOnce d (sendAt a) m =
      { success := false, sendResults := [], warnedNoChannels := true }) ∧
    dispatch d sendAt m = (false, 3, 3) := by
  have hone : ∀ a, dispatchOnce d (sendAt a) m =
      { success := false, sendResults := [], warnedNoChannels := true } := by
    intro a
    simp [dispatchOnce, h]
  refine ⟨hone, ?_⟩
  rw [dispatch, withRetry]
  exact retryLoop_all_false _ 3 1 (fun b _ _ => by rw [hone b])

/-- Closed instance of `dispatch_noChannels`: the initial dispatcher state has
an empty "ALERT" channel list, and dispatching an "ALERT" message returns
`false` only after 3 attempts and 3 sleeps. -/
theorem dispatch_noChannels_witness :
    ((initChannels Unit).lookup alertMsg.level).getD [] = [] ∧
    dispatch (initChannels Unit) (fun _ _ _ => false) alertMsg = (false, 3, 3) :=
  ⟨by decide,
    (dispatch_noChannels (initChannels Unit) (fun _ _ _ => false) alertMsg (by decide)).2⟩

/-! ### src/fallback/safe_logger.py and fallback_handler.py

`FallbackHandler.emit` timestamps the record and enqueues it; the queue is
drained by a background worker, so from the caller's side `emit` is exactly
an enqueue.  `SafeLogger` owns a `BufferManager()` built with the default
capacity 500 and a `FallbackHandler`. -/

/-- The observable state of one `SafeLogger`: its `BufferManager.buffer` and
its `FallbackHandler.queue` (timestamped string records, FIFO). -/
structure SafeState where
  buffer : List String
  queue : List String
deriving DecidableEq

/-- `FallbackHandler.emit` (fallback_handler.py lines 24-27):
`self.queue.put(f"[{timestamp}] {record}")`.  The timestamp string is taken
as a parameter (`time.strftime` of the wall clock). -/
def fhEmit (timestamp : String) (queue : List String) (record : String) : List String :=
  queue ++ ["[" ++ timestamp ++ "] " ++ record]

/-- `SafeLogger.log` (safe_logger.py lines 15-20): try the primary logger;
on any exception `e`, `self.buffer.add(msg)` (capacity 500) and
`self.fallback.emit(f"[MAIN LOGGER ERROR: {e}] {msg}")`.  Total in both
branches: the caller never observes an exception. -/
def safeLog (mainLog : String → String → Except String Unit) (timestamp : String)
    (level msg : String) (s : SafeState) : SafeState :=
  match mainLog level msg with
  | .ok _ => s
  | .error e =>
    { buffer := bmAdd 500 s.buffer msg
      queue := fhEmit timestamp s.queue ("[MAIN LOGGER ERROR: " ++ e ++ "] " ++ msg) }

theorem bmAdd_getLast (capacity : Nat) (hc : 0 < capacity) (buffer : List String)
    (message : String) : (bmAdd capacity buffer message).getLast? = some message := by
  simp only [bmAdd]
  split
  · rename_i hlen
    rcases buffer with _ | ⟨b, bs⟩
    · simp at hlen; omega
    · simp only [List.cons_append, List.drop_succ_cons, List.drop_zero]
      exact List.getLast?_concat _
  · exact List.getLast?_concat _

/-- C3: whenever the primary logger raises, `SafeLogger.log` returns normally
(it is total) with the message appended to the fallback buffer — it is the
buffer's last element — and exactly one record, annotated with the causing
error, appended to the fallback handler's queue. -/
theorem safeLogger_absorbs (mainLog : String → String → Except String Unit)
    (timestamp level msg e : String) (s : SafeState)
    (h : mainLog level msg = Except.error e) :
    (safeLog mainLog timestamp level msg s).buffer = bmAdd 500 s.buffer msg ∧
    (safeLog mainLog timestamp level msg s).buffer.getLast? = some msg ∧
    (safeLog mainLog timestamp level msg s).queue =
      s.queue ++ ["[" ++ timestamp ++ "] " ++ ("[MAIN LOGGER ERROR: " ++ e ++ "] " ++ msg)] := by
  refine ⟨?_, ?_, ?_⟩ <;> simp only [safeLog, h, fhEmit]
  exact bmAdd_getLast 500 (by omega) s.buffer msg

/-- A primary logger whose `log` always raises. -/
def raisingLogger (_ _ : String) : Except String Unit := .error "boom"

/-- Closed instance of `safeLogger_absorbs`: the always-raising primary logger
on `log("ERROR", "x")` — no exception escapes and the buffer ends with "x". -/
theorem safeLogger_absorbs_witness :
    raisingLogger "ERROR" "x" = Except.error "boom" ∧
    ((safeLog raisingLogger "t0" "ERROR" "x" ⟨[], []⟩).buffer = bmAdd 500 [] "x" ∧
     (safeLog raisingLogger "t0" "ERROR" "x" ⟨[], []⟩).buffer.getLast? = some "x" ∧
     (safeLog raisingLogger "t0" "ERROR" "x" ⟨[], []⟩).queue =
       [] ++ ["[" ++ "t0" ++ "] " ++ ("[MAIN LOGGER ERROR: " ++ "boom" ++ "] " ++ "x")]) :=
  ⟨rfl, safeLogger_absorbs raisingLogger "t0" "ERROR" "x" "boom" ⟨[], []⟩ rfl⟩

/-- C8: when the primary logger's `log` returns normally, `SafeLogger.log`
changes nothing: the fallback buffer and the fallback handler's queue are
untouched (the fallback path runs only on primary failure). -/
theorem safeLogger_frame (mainLog : String → String → Except String Unit)
    (timestamp level msg : String) (s : SafeState)
    (h : mainLog level msg = Except.ok ()) :
    safeLog mainLog timestamp level msg s = s := by
  simp only [safeLog, h]

/-- A primary logger whose `log` always succeeds. -/
def quietLogger (_ _ : String) : Except String Unit := .ok ()

/-- Closed instance of `safeLogger_frame`: a succeeding primary leaves a
non-empty buffer/queue state exactly as it was. -/
theorem safeLogger_frame_witness :
    quietLogger "INFO" "y" = Except.ok () ∧
    safeLog quietLogger "t1" "INFO" "y" ⟨["old"], ["q"]⟩ = ⟨["old"], ["q"]⟩ :=
  ⟨rfl, safeLogger_frame quietLogger "t1" "INFO" "y" ⟨["old"], ["q"]⟩ rfl⟩

/-! ### src/context.py

The module keeps every slot in two storages: a `ContextVar` (async-aware) and
a `threading.local` attribute.  Within one thread of control — the setting of
every claim below — each `set_*` writes both and each `clear_*` empties both,
so the two copies are carried explicitly and stay in lock-step.  A getter
consults the `ContextVar` first and falls back to the thread-local value when
the `ContextVar` holds a falsy value (`None` or `""`; empty dict for extra
fields), exactly as the Python truthiness tests do.  Extra-field values are
arbitrary Python objects, embedded as an opaque type `V`. -/

/-- Python truthiness of an optional string: `None` and `""` are falsy. -/
def truthy : Option String → Bool
  | none => false
  | some s => !(s == "")

/-- The context store: `_correlation_id_ctx`/`_thread_local.correlation_id`,
the analogous transaction and user slots, and
`_extra_fields_ctx`/`_thread_local.extra_fields` (insertion-ordered dicts;
`none`-like absence of a thread-local attribute is the empty/`none` value). -/
structure CtxState (V : Type) where
  corrCtx : Option String
  corrTL : Option String
  txnCtx : Option String
  txnTL : Option String
  userCtx : Option String
  userTL : Option String
  extraCtx : List (String × V)
  extraTL : List (String × V)
deriving DecidableEq

/-- The state at interpreter start: both storages empty everywhere. -/
def initCtx (V : Type) : CtxState V :=
  { corrCtx := none, corrTL := none, txnCtx := none, txnTL := none,
    userCtx := none, userTL := none, extraCtx := [], extraTL := [] }

/-- `set_correlation_id` (context.py lines 38-62): when the argument is
`None`, `generate_correlation_id()` supplies a fresh UUID string — embedded
as the oracle argument `u` — then the id is written to both storages and
returned. -/
def set_correlation_id {V : Type} (correlationId : Option String) (u : String)
    (s : CtxState V) : String × CtxState V :=
  let c := correlationId.getD u
  (c, { s with corrCtx := some c, corrTL := some c })

/-- `get_correlation_id` (context.py lines 65-83): the `ContextVar` if truthy,
else the thread-local attribute (or `None` when absent). -/
def get_correlation_id {V : Type} (s : CtxState V) : Option String :=
  if truthy s.corrCtx then s.corrCtx else s.corrTL

/-- `clear_correlation_id` (context.py lines 86-98): reset the `ContextVar`
to `None` and delete the thread-local attribute when present (deleting an
absent attribute is skipped, so clearing twice is a no-op). -/
def clear_correlation_id {V : Type} (s : CtxState V) : CtxState V :=
  { s with corrCtx := none, corrTL := none }

/-- `set_transaction_id` (context.py lines 101-112). -/
def set_transaction_id {V : Type} (transactionId : String) (s : CtxState V) : CtxState V :=
  { s with txnCtx := some transactionId, txnTL := some transactionId }

/-- `get_transaction_id` (context.py lines 115-130). -/
def get_transaction_id {V : Type} (s : CtxState V) : Option String :=
  if truthy s.txnCtx then s.txnCtx else s.txnTL

/-- `clear_transaction_id` (context.py lines 133-137). -/
def clear_transaction_id {V : Type} (s : CtxState V) : CtxState V :=
  { s with txnCtx := none, txnTL := none }

/-- `set_user_id` (context.py lines 140-151). -/
def set_user_id {V : Type} (userId : String) (s : CtxState V) : CtxState V :=
  { s with userCtx := some userId, userTL := some userId }

/-- `get_user_id` (context.py lines 154-164). -/
def get_user_id {V : Type} (s : CtxState V) : Option String :=
  if truthy s.userCtx then s.userCtx else s.userTL

/-- `clear_user_id` (context.py lines 167-171). -/
def clear_user_id {V : Type} (s : CtxState V) : CtxState V :=
  { s with userCtx := none, userTL := none }

/-- Python `d[k] = v` on an insertion-ordered dict: update the present key in
place, else append the new pair at the end. -/
def dictInsert {V : Type} (d : List (String × V)) (k : String) (v : V) :
    List (String × V) :=
  if (d.lookup k).isSome then d.map (fun p => if p.1 = k then (p.1, v) else p)
  else d ++ [(k, v)]

/-- `set_extra_field` (context.py lines 174-192): copy-then-write into the
`ContextVar` dict and in-place write into the thread-local dict — the same
dict operation on both storages. -/
def set_extra_field {V : Type} (key : String) (value : V) (s : CtxState V) : CtxState V :=
  { s with extraCtx := dictInsert s.extraCtx key value,
           extraTL := dictInsert s.extraTL key value }

/-- `get_extra_fields` (context.py lines 195-210): a copy of the `ContextVar`
dict if it is non-empty (truthy), else of the thread-local dict. -/
def get_extra_fields {V : Type} (s : CtxState V) : List (String × V) :=
  if s.extraCtx.isEmpty then s.extraTL else s.extraCtx

/-- `clear_extra_fields` (context.py lines 213-217). -/
def clear_extra_fields {V : Type} (s : CtxState V) : CtxState V :=
  { s with extraCtx := [], extraTL := [] }

/-- The four values `LoggingContext.__enter__` snapshots (context.py lines
287-290) before installing the scope's own values. -/
structure CtxSnapshot (V : Type) where
  corr : Option String
  txn : Option String
  user : Option String
  extra : List (String × V)
deriving DecidableEq

/-- The snapshot taken at scope entry: the observed (getter) values. -/
def snapshotContext {V : Type} (s : CtxState V) : CtxSnapshot V :=
  { corr := get_correlation_id s, txn := get_transaction_id s,
    user := get_user_id s, extra := get_extra_fields s }

/-- `LoggingContext.__enter__` (context.py lines 284-306): snapshot, then
`set_correlation_id(self.correlation_id)` if an id was given or
auto-generation is on (`u` is the UUID the generator would produce), set
transaction/user ids only if truthy, and `set_extra_field` each keyword
field in order.  Returns the snapshot together with the new state. -/
def loggingContextEnter {V : Type} (correlationId transactionId userId : Option String)
    (autoGenerateCorrelation : Bool) (extraFields : List (String × V)) (u : String)
    (s : CtxState V) : CtxSnapshot V × CtxState V :=
  let snap := snapshotContext s
  let s1 := if truthy correlationId || autoGenerateCorrelation then
      (set_correlation_id correlationId u s).2 else s
  let s2 := if truthy transactionId then
      set_transaction_id (transactionId.getD "") s1 else s1
  let s3 := if truthy userId then set_user_id (userId.getD "") s2 else s2
  (snap, extraFields.foldl (fun st p => set_extra_field p.1 p.2 st) s3)

/-- The correlation branch of `LoggingContext.__exit__` (context.py lines
311-314): `set_correlation_id(prev)` if the snapshot value is truthy, else
`clear_correlation_id()`.  In the truthy branch the argument is not `None`,
so the UUID generator is never consulted — a dummy `""` oracle is passed. -/
def restoreCorrelation {V : Type} (prev : Option String) (s : CtxState V) : CtxState V :=
  if truthy prev then (set_correlation_id prev "" s).2 else clear_correlation_id s

/-- The transaction branch of `__exit__` (context.py lines 316-319). -/
def restoreTransaction {V : Type} (prev : Option String) (s : CtxState V) : CtxState V :=
  if truthy prev then set_transaction_id (prev.getD "") s else clear_transaction_id s

/-- The user branch of `__exit__` (context.py lines 321-324). -/
def restoreUser {V : Type} (prev : Option String) (s : CtxState V) : CtxState V :=
  if truthy prev then set_user_id (prev.getD "") s else clear_user_id s

/-- `LoggingContext.__exit__` (context.py lines 308-329), which Python runs on
every scope exit, normal or exceptional: restore the three id slots from the
snapshot, then `clear_extra_fields()` and re-`set_extra_field` every
snapshotted pair in order (whole-map replace). -/
def loggingContextExit {V : Type} (snap : CtxSnapshot V) (s : CtxState V) : CtxState V :=
  snap.extra.foldl (fun st p => set_extra_field p.1 p.2 st)
    (clear_extra_fields (restoreUser snap.user
      (restoreTransaction snap.txn (restoreCorrelation snap.corr s))))

/-! ### Context lemmas -/

theorem lookup_append_pair {β : Type} (d : List (String × β)) (k : String) (w : β) :
    d.lookup k = none → (d ++ [(k, w)]).lookup k = some w := by
  induction d with
  | nil => intro _; exact lookup_cons_self k w []
  | cons p rest ih =>
    intro h
    obtain ⟨k', w'⟩ := p
    by_cases hl : k = k'
    · subst hl; rw [lookup_cons_self] at h; exact absurd h (by simp)
    · rw [lookup_cons_ne k' k w' rest hl] at h
      rw [List.cons_append, lookup_cons_ne k' k w' _ hl]
      exact ih h

theorem lookup_append_pair_ne {β : Type} (d : List (String × β)) (k l : String) (w : β)
    (h : l ≠ k) : (d ++ [(k, w)]).lookup l = d.lookup l := by
  induction d with
  | nil => simpa using lookup_cons_ne k l w [] h
  | cons p rest ih =>
    obtain ⟨k', w'⟩ := p
    by_cases hl : l = k'
    · subst hl
      rw [List.cons_append, lookup_cons_self, lookup_cons_self]
    · rw [List.cons_append, lookup_cons_ne k' l w' _ hl, lookup_cons_ne k' l w' rest hl]
      exact ih

/-- Folding `dictInsert` over a list of pairs, as the restore loop in
`__exit__` and the extra-fields loop in `__enter__` do. -/
def dictInsertAll {V : Type} (d l : List (String × V)) : List (String × V) :=
  l.foldl (fun acc p => dictInsert acc p.1 p.2) d

theorem dictInsertAll_fresh {V : Type} (l : List (String × V)) :
    ∀ d : List (String × V), (∀ p ∈ l, d.lookup p.1 = none) →
    (l.map Prod.fst).Nodup → dictInsertAll d l = d ++ l := by
  induction l with
  | nil => intro d _ _; simp [dictInsertAll]
  | cons p rest ih =>
    intro d hdisj hnd
    have hfresh : d.lookup p.1 = none := hdisj p (List.mem_cons_self p rest)
    have hstep : dictInsert d p.1 p.2 = d ++ [(p.1, p.2)] := by
      simp [dictInsert, hfresh]
    have hrec : dictInsertAll d (p :: rest) = dictInsertAll (dictInsert d p.1 p.2) rest := rfl
    rw [List.map_cons, List.nodup_cons] at hnd
    have hd2 : ∀ q ∈ rest, (d ++ [(p.1, p.2)]).lookup q.1 = none := by
      intro q hq
      have hne : q.1 ≠ p.1 := fun he => hnd.1 (List.mem_map.mpr ⟨q, hq, he⟩)
      rw [lookup_append_pair_ne d p.1 q.1 p.2 hne]
      exact hdisj q (List.mem_cons_of_mem p hq)
    rw [hrec, hstep, ih (d ++ [(p.1, p.2)]) hd2 hnd.2]
    simp

theorem foldl_set_extra {V : Type} (l : List (String × V)) :
    ∀ s : CtxState V, l.foldl (fun st p => set_extra_field p.1 p.2 st) s =
      { s with extraCtx := dictInsertAll s.extraCtx l,
               extraTL := dictInsertAll s.extraTL l } := by
  induction l with
  | nil => intro s; rfl
  | cons p rest ih =>
    intro s
    rw [List.foldl_cons, ih]
    rfl

theorem restoreCorrelation_fields {V : Type} (prev : Option String) (s : CtxState V) :
    (restoreCorrelation prev s).corrCtx = (if truthy prev then some (prev.getD "") else none) ∧
    (restoreCorrelation prev s).corrTL = (if truthy prev then some (prev.getD "") else none) ∧
    (restoreCorrelation prev s).txnCtx = s.txnCtx ∧
    (restoreCorrelation prev s).txnTL = s.txnTL ∧
    (restoreCorrelation prev s).userCtx = s.userCtx ∧
    (restoreCorrelation prev s).userTL = s.userTL := by
  unfold restoreCorrelation
  split <;> rename_i h <;>
    simp [h, set_correlation_id, clear_correlation_id]

theorem restoreTransaction_fields {V : Type} (prev : Option String) (s : CtxState V) :
    (restoreTransaction prev s).txnCtx = (if truthy prev then some (prev.getD "") else none) ∧
    (restoreTransaction prev s).txnTL = (if truthy prev then some (prev.getD "") else none) ∧
    (restoreTransaction prev s).corrCtx = s.corrCtx ∧
    (restoreTransaction prev s).corrTL = s.corrTL ∧
    (restoreTransaction prev s).userCtx = s.userCtx ∧
    (restoreTransaction prev s).userTL = s.userTL := by
  unfold restoreTransaction
  split <;> rename_i h <;>
    simp [h, set_transaction_id, clear_transaction_id]

theorem restoreUser_fields {V : Type} (prev : Option String) (s : CtxState V) :
    (restoreUser prev s).userCtx = (if truthy prev then some (prev.getD "") else none) ∧
    (restoreUser prev s).userTL = (if truthy prev then some (prev.getD "") else none) ∧
    (restoreUser prev s).corrCtx = s.corrCtx ∧
    (restoreUser prev s).corrTL = s.corrTL ∧
    (restoreUser prev s).txnCtx = s.txnCtx ∧
    (restoreUser prev s).txnTL = s.txnTL := by
  unfold restoreUser
  split <;> rename_i h <;>
    simp [h, set_user_id, clear_user_id]

/-- Normal form of the state `__exit__` leaves behind: each id slot is the
snapshotted value when truthy and cleared otherwise (in both storages), and
the extra-fields dicts are the snapshot re-inserted into empty dicts. -/
theorem exit_fields {V : Type} (snap : CtxSnapshot V) (s : CtxState V) :
    loggingContextExit snap s =
      { corrCtx := if truthy snap.corr then some (snap.corr.getD "") else none,
        corrTL := if truthy snap.corr then some (snap.corr.getD "") else none,
        txnCtx := if truthy snap.txn then some (snap.txn.getD "") else none,
        txnTL := if truthy snap.txn then some (snap.txn.getD "") else none,
        userCtx := if truthy snap.user then some (snap.user.getD "") else none,
        userTL := if truthy snap.user then some (snap.user.getD "") else none,
        extraCtx := dictInsertAll [] snap.extra,
        extraTL := dictInsertAll [] snap.extra } := by
  unfold loggingContextExit
  rw [foldl_set_extra]
  by_cases hc : truthy snap.corr <;> by_cases ht : truthy snap.txn <;>
    by_cases hu : truthy snap.user <;>
    simp [hc, ht, hu, restoreUser, restoreTransaction, restoreCorrelation,
      set_correlation_id, set_transaction_id, set_user_id, clear_correlation_id,
      clear_transaction_id, clear_user_id, clear_extra_fields]

theorem exit_corr {V : Type} (snap : CtxSnapshot V) (s : CtxState V)
    (h : snap.corr ≠ some "") :
    get_correlation_id (loggingContextExit snap s) = snap.corr := by
  rw [exit_fields]
  rcases hp : snap.corr with _ | v
  · simp [get_correlation_id, truthy]
  · have hv : v ≠ "" := fun he => h (by rw [hp, he])
    simp [get_correlation_id, truthy, beq_false_of_ne hv]

theorem exit_txn {V : Type} (snap : CtxSnapshot V) (s : CtxState V)
    (h : snap.txn ≠ some "") :
    get_transaction_id (loggingContextExit snap s) = snap.txn := by
  rw [exit_fields]
  rcases hp : snap.txn with _ | v
  · simp [get_transaction_id, truthy]
  · have hv : v ≠ "" := fun he => h (by rw [hp, he])
    simp [get_transaction_id, truthy, beq_false_of_ne hv]

theorem exit_user {V : Type} (snap : CtxSnapshot V) (s : CtxState V)
    (h : snap.user ≠ some "") :
    get_user_id (loggingContextExit snap s) = snap.user := by
  rw [exit_fields]
  rcases hp : snap.user with _ | v
  · simp [get_user_id, truthy]
  · have hv : v ≠ "" := fun he => h (by rw [hp, he])
    simp [get_user_id, truthy, beq_false_of_ne hv]

theorem exit_extra {V : Type} (snap : CtxSnapshot V) (s : CtxState V)
    (h : (snap.extra.map Prod.fst).Nodup) :
    get_extra_fields (loggingContextExit snap s) = snap.extra := by
  rw [exit_fields]
  have hall : dictInsertAll ([] : List (String × V)) snap.extra = [] ++ snap.extra :=
    dictInsertAll_fresh snap.extra [] (fun p _ => rfl) h
  simp only [List.nil_append] at hall
  simp [get_extra_fields, hall]

/-- C2 counterexample: a prior correlation_id that is set but empty is NOT
restored.  Before entering the scope `get_correlation_id()` observes `""`
(the empty string was written to both storages), but `__exit__`'s truthiness
test `if self.prev_correlation_id:` treats `""` as absent and clears the slot,
so after exit `get_correlation_id()` observes `None` instead of `""`. -/
theorem scope_restore_cex :
    get_correlation_id (set_correlation_id (some "") "u0" (initCtx String)).2 = some "" ∧
    get_correlation_id
      (loggingContextExit
        (loggingContextEnter none none none true [] "u1"
          (set_correlation_id (some "") "u0" (initCtx String)).2).1
        (loggingContextEnter none none none true [] "u1"
          (set_correlation_id (some "") "u0" (initCtx String)).2).2) = none := by
  decide

/-- C2 amended: provided each of the three prior id slots is observed as
either unset or a non-empty string (a set-but-empty `""` prior value is
cleared on exit, not restored — see `scope_restore_cex`), and the prior
extra-fields map has no duplicate keys (always true of a Python dict),
exiting a `LoggingContext` scope restores all four observable slots to
exactly the values observed immediately before entry, whatever the scope's
arguments and whatever state the body left behind (`sBody` is arbitrary, so
this covers bodies that raise and arbitrarily nested inner scopes); the
extra-fields restore is a whole-map replace, so fields added inside the
scope are removed. -/
theorem scope_restore {V : Type} (s0 sBody : CtxState V)
    (correlationId transactionId userId : Option String) (auto : Bool)
    (extraFields : List (String × V)) (u : String)
    (hc : get_correlation_id s0 ≠ some "")
    (ht : get_transaction_id s0 ≠ some "")
    (hu : get_user_id s0 ≠ some "")
    (hx : ((get_extra_fields s0).map Prod.fst).Nodup) :
    get_correlation_id
      (loggingContextExit
        (loggingContextEnter correlationId transactionId userId auto extraFields u s0).1
        sBody) = get_correlation_id s0 ∧
    get_transaction_id
      (loggingContextExit
        (loggingContextEnter correlationId transactionId userId auto extraFields u s0).1
        sBody) = get_transaction_id s0 ∧
    get_user_id
      (loggingContextExit
        (loggingContextEnter correlationId transactionId userId auto extraFields u s0).1
        sBody) = get_user_id s0 ∧
    get_extra_fields
      (loggingContextExit
        (loggingContextEnter correlationId transactionId userId auto extraFields u s0).1
        sBody) = get_extra_fields s0 := by
  have hsnap : (loggingContextEnter correlationId transactionId userId auto
      extraFields u s0).1 = snapshotContext s0 := rfl
  rw [hsnap]
  exact ⟨exit_corr (snapshotContext s0) sBody hc, exit_txn (snapshotContext s0) sBody ht,
    exit_user (snapshotContext s0) sBody hu, exit_extra (snapshotContext s0) sBody hx⟩

/-- A concrete prior state for `scope_restore_witness`: correlation_id "A"
and one extra field, built through the module's own setters. -/
def priorState : CtxState String :=
  set_extra_field "k" "v" (set_correlation_id (some "A") "u" (initCtx String)).2

/-- A concrete mid-scope state for `scope_restore_witness`: inside the scope
the body set correlation_id to "Y" and added another extra field. -/
def bodyState : CtxState String :=
  (set_correlation_id (some "Y") "uY"
    (set_extra_field "inner" "z"
      (loggingContextEnter (some "X") none none true [("n", "1")] "ux" priorState).2)).2

/-- Closed instance of `scope_restore`: enter a scope with correlation_id "X"
and extra field ("n","1") from `priorState`, mutate inside (`bodyState`),
exit — all four observed values return to those of `priorState`, and the
extra field added inside the scope is gone. -/
theorem scope_restore_witness :
    (get_correlation_id priorState ≠ some "" ∧
     get_transaction_id priorState ≠ some "" ∧
     get_user_id priorState ≠ some "" ∧
     ((get_extra_fields priorState).map Prod.fst).Nodup) ∧
    (get_correlation_id
      (loggingContextExit
        (loggingContextEnter (some "X") none none true [("n", "1")] "ux" priorState).1
        bodyState) = get_correlation_id priorState ∧
     get_transaction_id
      (loggingContextExit
        (loggingContextEnter (some "X") none none true [("n", "1")] "ux" priorState).1
        bodyState) = get_transaction_id priorState ∧
     get_user_id
      (loggingContextExit
        (loggingContextEnter (some "X") none none true [("n", "1")] "ux" priorState).1
        bodyState) = get_user_id priorState ∧
     get_extra_fields
      (loggingContextExit
        (loggingContextEnter (some "X") none none true [("n", "1")] "ux" priorState).1
        bodyState) = get_extra_fields priorState) :=
  ⟨⟨by decide, by decide, by decide, by decide⟩,
    scope_restore priorState bodyState (some "X") none none true [("n", "1")] "ux"
      (by decide) (by decide) (by decide) (by decide)⟩

/-- C10: within one thread of control, `set_correlation_id(s)` returns `s`
and a following `get_correlation_id()` observes `s` (even for `s = ""`,
thanks to the thread-local fallback); `set_correlation_id()` with no argument
installs and returns the freshly generated UUID string `u`, which a following
`get_correlation_id()` observes; after `clear_correlation_id()` the getter
observes `None`; and clearing an already-cleared state is a no-op (clearing
is total and idempotent), not an error. -/
theorem correlationId_api {V : Type} (s : CtxState V) (v u : String) :
    (set_correlation_id (some v) u s).1 = v ∧
    get_correlation_id (set_correlation_id (some v) u s).2 = some v ∧
    (set_correlation_id none u s).1 = u ∧
    get_correlation_id (set_correlation_id none u s).2 = some u ∧
    get_correlation_id (clear_correlation_id s) = none ∧
    clear_correlation_id (clear_correlation_id s) = clear_correlation_id s := by
  refine ⟨rfl, ?_, rfl, ?_, ?_, rfl⟩
  · simp only [set_correlation_id, get_correlation_id]
    split
    · rfl
    · rfl
  · simp only [set_correlation_id, get_correlation_id]
    split
    · rfl
    · rfl
  · rfl

end LoggerOne
